import Mathlib

/-!
Verification of `dp_st_boundary_mapper.cc` (Apollo planning module).

Shallow embedding of `DpStBoundaryMapper::get_graph_boundary`,
`map_obstacle_with_trajectory` and `map_obstacle_without_trajectory`
from `modules/planning/optimizer/dp_st_speed/dp_st_boundary_mapper.cc`.

Doubles are modelled as rationals.  The oriented-box overlap test
`check_overlap`, the configuration accessors (`st_boundary_config`,
`vehicle_param`) and `Double::compare` are declared in headers that are
not part of this repository snapshot; the overlap test is therefore kept
abstract (an arbitrary boolean-valued function parameter) and
`Double::compare` is modelled from the spec (epsilon-aware comparison).

The C++ while-loop uses `std::uint32_t` cursors; the decrement
`--high_index` at 0 wraps around to `2^32 - 1`.  Array accesses
`veh_path[i]` with `i` out of range are undefined behaviour in C++; the
model flags them with an explicit `oob` result, and any computation that
would perform such an access returns `none`.
-/

set_option linter.unusedVariables false

namespace Apollo

/-- A sample of the discretized vehicle path (`common::PathPoint`):
2-D pose `(x, y, theta)` and station `s`. -/
structure PathPoint where
  x : ℚ
  y : ℚ
  theta : ℚ
  s : ℚ
deriving DecidableEq

instance : Inhabited PathPoint := ⟨⟨0, 0, 0, 0⟩⟩

/-- A station-time point (`STPoint(s, t)`). -/
structure STPoint where
  s : ℚ
  t : ℚ
deriving DecidableEq

/-- An st-graph boundary: an ordered sequence of `STPoint` vertices
(`StGraphBoundary(boundary_points)`). -/
structure StGraphBoundary where
  points : List STPoint
deriving DecidableEq

/-- An oriented rectangle (`common::math::Box2d`), built from a center,
a heading and dimensions.  Its geometry is never interpreted here because
the overlap test is abstract. -/
structure Box2d where
  cx : ℚ
  cy : ℚ
  heading : ℚ
  length : ℚ
  width : ℚ
deriving DecidableEq

/-- Vehicle configuration (`vehicle_param()`); opaque to the mapper. -/
structure VehicleParam where
  length : ℚ
  width : ℚ
deriving DecidableEq

/-- A sample of a predicted obstacle trajectory (`common::TrajectoryPoint`):
a pose (as a `PathPoint`) plus a relative time. -/
structure TrajectoryPoint where
  path_point : PathPoint
  relative_time : ℚ
deriving DecidableEq

/-- One predicted trajectory of a dynamic obstacle
(`PredictionTrajectory`); `num_of_points()` is the list length and
`trajectory_point_at j` is positional access. -/
structure PredictionTrajectory where
  trajectory_points : List TrajectoryPoint
deriving DecidableEq

/-- An obstacle: id, footprint dimensions, a fixed bounding box (used for
static obstacles) and the list of predicted trajectories (used for
dynamic obstacles). -/
structure Obstacle where
  id : Nat
  length : ℚ
  width : ℚ
  bounding_box : Box2d
  prediction_trajectories : List PredictionTrajectory
deriving DecidableEq

/-- The path container (`path_data.path()`), exposing
`num_of_points() = path_points.length` and `path_points()`. -/
structure PathData where
  path_points : List PathPoint
deriving DecidableEq

/-- The decision data: the two obstacle collections
(`StaticObstacles()` / `DynamicObstacles()`), `std::vector<const Obstacle*>`
whose entries may be null (`none`). -/
structure DecisionData where
  static_obstacles : List (Option Obstacle)
  dynamic_obstacles : List (Option Obstacle)
deriving DecidableEq

/-- Reference line; passed through unused by the mapper. -/
structure ReferenceLine where
  unused : Unit
deriving DecidableEq

/-- Call status (`common::Status`): either `Status::OK()` or
`Status(ErrorCode::PLANNING_ERROR, msg)`. -/
inductive Status where
  | ok : Status
  | error (msg : String) : Status
deriving DecidableEq

namespace Double

/-- Modelled from the spec: the epsilon used by the epsilon-aware
comparison `Double::compare` (`modules/planning/math/double.h`, not in
this snapshot). -/
def kEpsilon : ℚ := 1 / 1000000

/-- Modelled from the spec: `Double::compare(d1, d2)` — epsilon-aware
three-way comparison, not floating-point equality (the implementation in
`modules/planning/math/double.cc` is not in this snapshot). -/
def compare (d1 d2 : ℚ) : Int :=
  if d1 - d2 > kEpsilon then 1 else if d2 - d1 > kEpsilon then -1 else 0

end Double

/-- The clip `std::min(a, b)` used on station values (defined by the
order's decision procedure so that it evaluates inside the kernel). -/
def stdmin (a b : ℚ) : ℚ := if a ≤ b then a else b

/-- Modelled from the spec: the type of the oriented-box overlap test
`DpStBoundaryMapper::check_overlap(path_point, vehicle_param, obs_box,
buffer)` (its body lives in `st_boundary_mapper.cc`, not in this
snapshot).  The spec (§4.1) only requires it to be a pure boolean
function, so the mapper is parameterized by an arbitrary such function. -/
abbrev CheckOverlap : Type := PathPoint → VehicleParam → Box2d → ℚ → Bool

/-- Outcome of the converging two-cursor scan over the path. -/
inductive ScanResult where
  | found (low high : Nat) : ScanResult
  | notFound : ScanResult
  | oob (idx : Nat) : ScanResult
deriving DecidableEq

/-- The modulus `2 ^ 32` of the `std::uint32_t` cursors. -/
def uint32Mod : Nat := 2 ^ 32

/-- Decrement with wrap-around at 0 (`--high_index` on a `std::uint32_t`). -/
def decWrap (k : Nat) : Nat :=
  if k = 0 then uint32Mod - 1 else k - 1

/-- One C++ loop of the converging two-cursor search
(`while (high_index >= low_index) { ... }`), fuel-indexed.  Each
iteration: break when both cursors have found an overlap; otherwise the
low cursor (if still searching) reads `veh_path[low_index]` — flagged
`oob` when out of range — and either stops or advances, and then the high
cursor does the same and either stops or retreats (with uint32 wrap at
0).  After the loop the C++ reports an interval iff both flags are set.
The fuel is a modelling device only: `scanFuel` below is large enough
that fuel never runs out on any run the C++ loop completes (the C++ loop
has no bound of its own). -/
def scanAux (ov : Nat → Bool) (n : Nat) :
    Nat → Nat → Nat → Bool → Bool → Option ScanResult
  | 0, _, _, _, _ => none
  | fuel + 1, low, high, fl, fh =>
    if low ≤ high then
      if fl = true ∧ fh = true then
        some (ScanResult.found low high)
      else if fl = false ∧ n ≤ low then
        some (ScanResult.oob low)
      else if fh = false ∧ n ≤ high then
        some (ScanResult.oob high)
      else
        scanAux ov n fuel
          (if fl = true then low else if ov low = true then low else low + 1)
          (if fh = true then high else if ov high = true then high else decWrap high)
          (fl || ov low)
          (fh || ov high)
    else
      if fl = true ∧ fh = true then some (ScanResult.found low high)
      else some ScanResult.notFound

/-- Fuel budget for `scanAux`; sufficient for every run of the C++ loop
that terminates (each cursor moves at most `n` times before stopping,
going out of range, or crossing). -/
def scanFuel (n : Nat) : Nat := 2 * n + 4

/-- The converging two-end scan: cursors start at the first and last
index (`low_index = 0`, `high_index = veh_path.size() - 1`). -/
def scan (ov : Nat → Bool) (n : Nat) : Option ScanResult :=
  scanAux ov n (scanFuel n) 0 (n - 1) false false

/-- The overlap predicate at path index `i`:
`check_overlap(veh_path[i], vehicle_param(), obs_box, buffer)`. -/
def overlapAt (co : CheckOverlap) (vp : VehicleParam) (buffer : ℚ)
    (obs_box : Box2d) (veh_path : List PathPoint) (i : Nat) : Bool :=
  co (veh_path.getD i default) vp obs_box buffer

/-- Embedding of `DpStBoundaryMapper::map_obstacle_without_trajectory`.  Returns
`none` when a path access out of range (C++ UB) would occur. -/
def map_obstacle_without_trajectory (co : CheckOverlap) (vp : VehicleParam)
    (buffer : ℚ) (obstacle : Obstacle) (path_data : PathData)
    (planning_distance planning_time : ℚ)
    (boundary : List StGraphBoundary) : Option (Status × List StGraphBoundary) :=
  let veh_path := path_data.path_points
  let obs_box := obstacle.bounding_box
  if veh_path.length = 0 then
    some (Status.error "[DP_ST_BOUNDARY_MAPPER] Vehicle path empty.", boundary)
  else
    match scan (overlapAt co vp buffer obs_box veh_path) veh_path.length with
    | none => none
    | some (ScanResult.oob _) => none
    | some ScanResult.notFound => some (Status.ok, boundary)
    | some (ScanResult.found low_index high_index) =>
      let s_upper := stdmin (veh_path.getD high_index default).s planning_distance
      let s_lower := stdmin (veh_path.getD low_index default).s planning_distance
      if Double.compare s_lower s_upper < 0 then
        some (Status.ok, boundary ++
          [⟨[⟨s_lower, 0⟩, ⟨s_lower, planning_time⟩,
             ⟨s_upper, planning_time⟩, ⟨s_upper, 0⟩]⟩])
      else
        some (Status.ok, boundary)

/-- The inner sample loop of `map_obstacle_with_trajectory`
(`for j < pred_traj.num_of_points()`), carrying the accumulated
`lower_points`, `upper_points` and the per-trajectory `skip` flag.
`Sum.inl ()` models the early `return Status::OK();` taken when the
vehicle path is empty; `none` models an out-of-range path access. -/
def dyn_samples (co : CheckOverlap) (vp : VehicleParam) (buffer : ℚ)
    (obs_length obs_width : ℚ) (veh_path : List PathPoint)
    (planning_distance : ℚ) :
    List TrajectoryPoint → List STPoint → List STPoint → Bool →
    Option (Sum Unit (List STPoint × List STPoint × Bool))
  | [], lower_points, upper_points, skip =>
    some (Sum.inr (lower_points, upper_points, skip))
  | cur_obs_point :: rest, lower_points, upper_points, skip =>
    let obs_box : Box2d :=
      ⟨cur_obs_point.path_point.x, cur_obs_point.path_point.y,
       cur_obs_point.path_point.theta, obs_length, obs_width⟩
    if veh_path.length = 0 then
      some (Sum.inl ())
    else
      match scan (overlapAt co vp buffer obs_box veh_path) veh_path.length with
      | none => none
      | some (ScanResult.oob _) => none
      | some ScanResult.notFound =>
        dyn_samples co vp buffer obs_length obs_width veh_path
          planning_distance rest lower_points upper_points skip
      | some (ScanResult.found low_index high_index) =>
        let s_upper := stdmin (veh_path.getD high_index default).s planning_distance
        let s_lower := stdmin (veh_path.getD low_index default).s planning_distance
        if 0 ≤ Double.compare s_lower s_upper then
          dyn_samples co vp buffer obs_length obs_width veh_path
            planning_distance rest lower_points upper_points skip
        else
          dyn_samples co vp buffer obs_length obs_width veh_path
            planning_distance rest
            (lower_points ++ [⟨s_lower, cur_obs_point.relative_time⟩])
            (upper_points ++ [⟨s_upper, cur_obs_point.relative_time⟩])
            false

/-- The outer trajectory loop of `map_obstacle_with_trajectory`
(`for i < obstacle.prediction_trajectories().size()`).  Note that
`lower_points` / `upper_points` are declared outside this loop in the
C++ and therefore persist across trajectories, and that the closed
polygon `boundary_points` is computed but never appended to the output
vector. -/
def dyn_trajs (co : CheckOverlap) (vp : VehicleParam) (buffer : ℚ)
    (obs_length obs_width : ℚ) (veh_path : List PathPoint)
    (planning_distance : ℚ) :
    List PredictionTrajectory → List STPoint → List STPoint → Option Unit
  | [], _, _ => some ()
  | pred_traj :: rest, lower_points, upper_points =>
    match dyn_samples co vp buffer obs_length obs_width veh_path
        planning_distance pred_traj.trajectory_points
        lower_points upper_points true with
    | none => none
    | some (Sum.inl ()) => some ()
    | some (Sum.inr (lower_points', upper_points', skip)) =>
      if skip then
        dyn_trajs co vp buffer obs_length obs_width veh_path
          planning_distance rest lower_points' upper_points'
      else
        let boundary_points := lower_points' ++ upper_points'.reverse
        dyn_trajs co vp buffer obs_length obs_width veh_path
          planning_distance rest lower_points' upper_points'

/-- Embedding of `DpStBoundaryMapper::map_obstacle_with_trajectory`.  The function
never writes to `boundary` (the computed `boundary_points` polygon is
discarded by the C++, see the spec's design note on the dynamic mapping
output bug); `none` models an out-of-range path access. -/
def map_obstacle_with_trajectory (co : CheckOverlap) (vp : VehicleParam)
    (buffer : ℚ) (obstacle : Obstacle) (path_data : PathData)
    (planning_distance planning_time : ℚ)
    (boundary : List StGraphBoundary) : Option (Status × List StGraphBoundary) :=
  match dyn_trajs co vp buffer obstacle.length obstacle.width
      path_data.path_points planning_distance
      obstacle.prediction_trajectories [] [] with
  | none => none
  | some () => some (Status.ok, boundary)

/-- The static-obstacle loop of `get_graph_boundary`: null entries are
skipped; on a helper failure the loop returns
`Status(PLANNING_ERROR, "Fail to map static obstacle with id")` at once. -/
def goStatics (co : CheckOverlap) (vp : VehicleParam) (buffer : ℚ)
    (path_data : PathData) (planning_distance planning_time : ℚ) :
    List (Option Obstacle) → List StGraphBoundary →
    Option (Status × List StGraphBoundary)
  | [], acc => some (Status.ok, acc)
  | none :: rest, acc =>
    goStatics co vp buffer path_data planning_distance planning_time rest acc
  | some obs :: rest, acc =>
    match map_obstacle_without_trajectory co vp buffer obs path_data
        planning_distance planning_time acc with
    | none => none
    | some (Status.ok, acc') =>
      goStatics co vp buffer path_data planning_distance planning_time rest acc'
    | some (Status.error _, acc') =>
      some (Status.error "Fail to map static obstacle with id", acc')

/-- The dynamic-obstacle loop of `get_graph_boundary`: null entries are
skipped; on a helper failure the loop returns
`Status(PLANNING_ERROR, "Fail to map dynamic obstacle with id")` at once. -/
def goDynamics (co : CheckOverlap) (vp : VehicleParam) (buffer : ℚ)
    (path_data : PathData) (planning_distance planning_time : ℚ) :
    List (Option Obstacle) → List StGraphBoundary →
    Option (Status × List StGraphBoundary)
  | [], acc => some (Status.ok, acc)
  | none :: rest, acc =>
    goDynamics co vp buffer path_data planning_distance planning_time rest acc
  | some obs :: rest, acc =>
    match map_obstacle_with_trajectory co vp buffer obs path_data
        planning_distance planning_time acc with
    | none => none
    | some (Status.ok, acc') =>
      goDynamics co vp buffer path_data planning_distance planning_time rest acc'
    | some (Status.error _, acc') =>
      some (Status.error "Fail to map dynamic obstacle with id", acc')

/-- Embedding of `DpStBoundaryMapper::get_graph_boundary`.  The caller's output
vector `obs_boundary` is passed in as the last argument; the result pairs
the returned `Status` with the vector's final contents (the vector is
cleared only after both precondition checks pass). -/
def get_graph_boundary (co : CheckOverlap) (vp : VehicleParam) (buffer : ℚ)
    (initial_planning_point : TrajectoryPoint) (decision_data : DecisionData)
    (path_data : PathData) (reference_line : ReferenceLine)
    (planning_distance planning_time : ℚ)
    (obs_boundary : List StGraphBoundary) : Option (Status × List StGraphBoundary) :=
  if planning_time < 0 then
    some (Status.error "Fail to get params since planning_time < 0.", obs_boundary)
  else if path_data.path_points.length < 2 then
    some (Status.error "Fail to get params", obs_boundary)
  else
    match goStatics co vp buffer path_data planning_distance planning_time
        decision_data.static_obstacles [] with
    | none => none
    | some (Status.error msg, acc) => some (Status.error msg, acc)
    | some (Status.ok, acc) =>
      goDynamics co vp buffer path_data planning_distance planning_time
        decision_data.dynamic_obstacles acc

/-- Removal of the null entries of an obstacle collection (the
entries a conforming pass over the collection would skip). -/
def denull (l : List (Option Obstacle)) : List (Option Obstacle) :=
  (l.filterMap id).map some

/-!
Concrete example inputs, used by witness theorems and counterexamples.
-/

/-- A straight path sample at station `q` (heading 0, on the x-axis). -/
def egPathPoint (q : ℚ) : PathPoint := ⟨q, 0, 0, q⟩

/-- A five-sample path at stations 0, 10, 20, 30, 40. -/
def egPath5 : PathData :=
  ⟨[egPathPoint 0, egPathPoint 10, egPathPoint 20, egPathPoint 30, egPathPoint 40]⟩

/-- A two-sample path at stations 0 and 10. -/
def egPath2 : PathData := ⟨[egPathPoint 0, egPathPoint 10]⟩

/-- An overlap test that fires exactly on samples with station in
`[20, 30]`. -/
def egOverlap2030 : CheckOverlap :=
  fun p _ _ _ => decide (20 ≤ p.s) && decide (p.s ≤ 30)

/-- An overlap test that always fires. -/
def egOverlapAll : CheckOverlap := fun _ _ _ _ => true

/-- An overlap test that never fires. -/
def egOverlapNone : CheckOverlap := fun _ _ _ _ => false

/-- An example vehicle (length 4, width 2). -/
def egVehicle : VehicleParam := ⟨4, 2⟩

/-- An example static obstacle whose box spans stations 18 to 32. -/
def egStaticObs : Obstacle := ⟨7, 14, 2, ⟨25, 0, 0, 14, 2⟩, []⟩

/-- An example trajectory sample at relative time 0. -/
def egTrajPoint : TrajectoryPoint := ⟨⟨0, 0, 0, 0⟩, 0⟩

/-- An example dynamic obstacle with one predicted trajectory of one
sample. -/
def egDynObs : Obstacle := ⟨3, 1, 1, ⟨0, 0, 0, 1, 1⟩, [⟨[egTrajPoint]⟩]⟩

/-- An example obstacle with id 1 (empty-path failure scenarios). -/
def egObsA : Obstacle := ⟨1, 1, 1, ⟨0, 0, 0, 1, 1⟩, []⟩

/-- An example obstacle with id 2, otherwise identical to `egObsA`. -/
def egObsB : Obstacle := ⟨2, 1, 1, ⟨0, 0, 0, 1, 1⟩, []⟩

/-- An example initial planning point. -/
def egIPP : TrajectoryPoint := ⟨⟨0, 0, 0, 0⟩, 0⟩

/-- An example reference line. -/
def egRefLine : ReferenceLine := ⟨()⟩

/-!
Lemmas about the converging two-cursor scan.
-/

/-- Invariant-preservation induction for the scan loop when some index
overlaps: if `l` is the least overlapping index and `h` the greatest one
(below `n`), then from any state satisfying the cursor invariants the
loop returns `found l h`. -/
lemma scanAux_found (ov : Nat → Bool) (n l h : Nat)
    (hln : l < n) (hovl : ov l = true) (hmin : ∀ k, k < l → ov k = false)
    (hhn : h < n) (hovh : ov h = true)
    (hmax : ∀ k, h < k → k < n → ov k = false) :
    ∀ fuel low high fl fh,
      (fl = true → low = l) → (fl = false → low ≤ l) →
      (fh = true → high = h) → (fh = false → h ≤ high ∧ high ≤ n - 1) →
      cond fl 0 (l - low + 1) + cond fh 0 (high - h + 1) < fuel →
      scanAux ov n fuel low high fl fh = some (ScanResult.found l h) := by
  have hlh : l ≤ h := by
    rcases le_or_lt l h with hx | hx
    · exact hx
    · exact absurd (hmax l hx hln) (by simp [hovl])
  intro fuel
  induction fuel with
  | zero =>
    intro low high fl fh _ _ _ _ hfuel
    exact absurd hfuel (Nat.not_lt_zero _)
  | succ f ih =>
    intro low high fl fh hfl1 hfl0 hfh1 hfh0 hfuel
    have hlow_le : low ≤ l := by
      cases fl with
      | false => exact hfl0 rfl
      | true => exact le_of_eq (hfl1 rfl)
    have hhigh_ge : h ≤ high := by
      cases fh with
      | false => exact (hfh0 rfl).1
      | true => exact le_of_eq (hfh1 rfl).symm
    have hlow_lt : low < n := lt_of_le_of_lt hlow_le hln
    have hhigh_lt : high < n := by
      cases fh with
      | false => have := (hfh0 rfl).2; omega
      | true => rw [hfh1 rfl]; exact hhn
    have hcond : low ≤ high := le_trans hlow_le (le_trans hlh hhigh_ge)
    rw [scanAux, if_pos hcond]
    cases fl with
    | true =>
      cases fh with
      | true =>
        rw [if_pos ⟨rfl, rfl⟩, hfl1 rfl, hfh1 rfl]
      | false =>
        rw [if_neg (by rintro ⟨-, hx⟩; cases hx)]
        rw [if_neg (by rintro ⟨hx, -⟩; cases hx)]
        rw [if_neg (by rintro ⟨-, hx⟩; omega)]
        have hlo := hfl1 rfl
        obtain ⟨hhge, hhle⟩ := hfh0 rfl
        have hf : 0 + (high - h + 1) < f + 1 := hfuel
        by_cases hovhigh : ov high = true
        · -- the high cursor finds the overlap at `high`; by maximality `high = h`
          have hhh : high = h := by
            rcases lt_or_le h high with hx | hx
            · exact absurd (hmax high hx hhigh_lt) (by simp [hovhigh])
            · omega
          simp only [hovhigh]
          refine ih low high true true ?_ ?_ ?_ ?_ ?_
          · intro _; exact hlo
          · intro hx; cases hx
          · intro _; exact hhh
          · intro hx; cases hx
          · show (0 : Nat) < f
            omega
        · -- no overlap at `high`: the high cursor retreats (no wrap since `h < high`)
          have hovhigh' : ov high = false := Bool.eq_false_iff.mpr hovhigh
          have hne : high ≠ h := fun he => hovhigh (by rw [he]; exact hovh)
          have hdw : decWrap high = high - 1 := by
            rw [decWrap, if_neg (by omega)]
          simp only [hovhigh']
          rw [hdw]
          refine ih low (high - 1) true false ?_ ?_ ?_ ?_ ?_
          · intro _; exact hlo
          · intro hx; cases hx
          · intro hx; cases hx
          · intro _; constructor <;> omega
          · show 0 + (high - 1 - h + 1) < f
            omega
    | false =>
      rw [if_neg (by rintro ⟨hx, -⟩; cases hx)]
      rw [if_neg (by rintro ⟨-, hx⟩; omega)]
      have hfl0' := hfl0 rfl
      cases fh with
      | true =>
        rw [if_neg (by rintro ⟨hx, -⟩; cases hx)]
        have hhi := hfh1 rfl
        have hf : (l - low + 1) + 0 < f + 1 := hfuel
        by_cases hovlow : ov low = true
        · -- the low cursor finds the overlap at `low`; by minimality `low = l`
          have hll : low = l := by
            rcases lt_or_le low l with hx | hx
            · exact absurd (hmin low hx) (by simp [hovlow])
            · omega
          simp only [hovlow]
          refine ih low high true true ?_ ?_ ?_ ?_ ?_
          · intro _; exact hll
          · intro hx; cases hx
          · intro _; exact hhi
          · intro hx; cases hx
          · show (0 : Nat) < f
            omega
        · -- no overlap at `low`: the low cursor advances (`low < l`)
          have hovlow' : ov low = false := Bool.eq_false_iff.mpr hovlow
          have hne : low ≠ l := fun he => hovlow (by rw [he]; exact hovl)
          simp only [hovlow']
          refine ih (low + 1) high false true ?_ ?_ ?_ ?_ ?_
          · intro hx; cases hx
          · intro _; omega
          · intro _; exact hhi
          · intro hx; cases hx
          · show (l - (low + 1) + 1) + 0 < f
            omega
      | false =>
        rw [if_neg (by rintro ⟨-, hx⟩; omega)]
        obtain ⟨hhge, hhle⟩ := hfh0 rfl
        have hf : (l - low + 1) + (high - h + 1) < f + 1 := hfuel
        by_cases hovlow : ov low = true
        · have hll : low = l := by
            rcases lt_or_le low l with hx | hx
            · exact absurd (hmin low hx) (by simp [hovlow])
            · omega
          by_cases hovhigh : ov high = true
          · have hhh : high = h := by
              rcases lt_or_le h high with hx | hx
              · exact absurd (hmax high hx hhigh_lt) (by simp [hovhigh])
              · omega
            simp only [hovlow, hovhigh]
            refine ih low high true true ?_ ?_ ?_ ?_ ?_
            · intro _; exact hll
            · intro hx; cases hx
            · intro _; exact hhh
            · intro hx; cases hx
            · show (0 : Nat) < f
              omega
          · have hovhigh' : ov high = false := Bool.eq_false_iff.mpr hovhigh
            have hne : high ≠ h := fun he => hovhigh (by rw [he]; exact hovh)
            have hdw : decWrap high = high - 1 := by
              rw [decWrap, if_neg (by omega)]
            simp only [hovlow, hovhigh']
            rw [hdw]
            refine ih low (high - 1) true false ?_ ?_ ?_ ?_ ?_
            · intro _; exact hll
            · intro hx; cases hx
            · intro hx; cases hx
            · intro _; constructor <;> omega
            · show 0 + (high - 1 - h + 1) < f
              omega
        · have hovlow' : ov low = false := Bool.eq_false_iff.mpr hovlow
          have hnel : low ≠ l := fun he => hovlow (by rw [he]; exact hovl)
          by_cases hovhigh : ov high = true
          · have hhh : high = h := by
              rcases lt_or_le h high with hx | hx
              · exact absurd (hmax high hx hhigh_lt) (by simp [hovhigh])
              · omega
            simp only [hovlow', hovhigh]
            refine ih (low + 1) high false true ?_ ?_ ?_ ?_ ?_
            · intro hx; cases hx
            · intro _; omega
            · intro _; exact hhh
            · intro hx; cases hx
            · show (l - (low + 1) + 1) + 0 < f
              omega
          · have hovhigh' : ov high = false := Bool.eq_false_iff.mpr hovhigh
            have hneh : high ≠ h := fun he => hovhigh (by rw [he]; exact hovh)
            have hdw : decWrap high = high - 1 := by
              rw [decWrap, if_neg (by omega)]
            simp only [hovlow', hovhigh']
            rw [hdw]
            refine ih (low + 1) (high - 1) false false ?_ ?_ ?_ ?_ ?_
            · intro hx; cases hx
            · intro _; omega
            · intro hx; cases hx
            · intro _; constructor <;> omega
            · show (l - (low + 1) + 1) + (high - 1 - h + 1) < f
              omega

/-- When some path index overlaps, the scan returns the least
overlapping index as `low` and the greatest one as `high`. -/
lemma scan_found (ov : Nat → Bool) (n l h : Nat)
    (hln : l < n) (hovl : ov l = true) (hmin : ∀ k, k < l → ov k = false)
    (hhn : h < n) (hovh : ov h = true)
    (hmax : ∀ k, h < k → k < n → ov k = false) :
    scan ov n = some (ScanResult.found l h) := by
  rw [scan]
  refine scanAux_found ov n l h hln hovl hmin hhn hovh hmax (scanFuel n) 0 (n - 1)
    false false ?_ ?_ ?_ ?_ ?_
  · intro hx; cases hx
  · intro _; exact Nat.zero_le l
  · intro hx; cases hx
  · intro _; exact ⟨by omega, le_refl _⟩
  · show (l - 0 + 1) + (n - 1 - h + 1) < 2 * n + 4
    omega

/-- When no path index overlaps and the cursors have crossed or will
cross without wrapping (`1 ≤ low`), the loop reports `notFound`. -/
lemma scanAux_notFound (ov : Nat → Bool) (n : Nat)
    (hall : ∀ i, i < n → ov i = false) :
    ∀ fuel low high, 1 ≤ fuel → 1 ≤ low → high < n → high + 2 ≤ low + fuel →
      scanAux ov n fuel low high false false = some ScanResult.notFound := by
  intro fuel
  induction fuel with
  | zero =>
    intro low high h0 h1 h2 h3
    omega
  | succ f ih =>
    intro low high h0 h1 h2 h3
    rw [scanAux]
    by_cases hc : low ≤ high
    · rw [if_pos hc]
      rw [if_neg (by rintro ⟨hx, -⟩; cases hx)]
      rw [if_neg (by rintro ⟨-, hx⟩; omega)]
      rw [if_neg (by rintro ⟨-, hx⟩; omega)]
      have hovlow : ov low = false := hall low (by omega)
      have hovhigh : ov high = false := hall high h2
      have hdw : decWrap high = high - 1 := by
        rw [decWrap, if_neg (by omega)]
      simp only [hovlow, hovhigh]
      rw [hdw]
      exact ih (low + 1) (high - 1) (by omega) (by omega) (by omega) (by omega)
    · rw [if_neg hc]
      rw [if_neg (by rintro ⟨hx, -⟩; cases hx)]

/-- On a path with at least two samples and no overlap anywhere, the
scan reports `notFound` (in particular, the high cursor never wraps). -/
lemma scan_notFound (ov : Nat → Bool) (n : Nat) (hn : 2 ≤ n)
    (hall : ∀ i, i < n → ov i = false) :
    scan ov n = some ScanResult.notFound := by
  rw [scan, scanFuel, show 2 * n + 4 = (2 * n + 3) + 1 from rfl, scanAux]
  rw [if_pos (by omega : 0 ≤ n - 1)]
  rw [if_neg (by rintro ⟨hx, -⟩; cases hx)]
  rw [if_neg (by rintro ⟨-, hx⟩; omega)]
  rw [if_neg (by rintro ⟨-, hx⟩; omega)]
  have h0 : ov 0 = false := hall 0 (by omega)
  have hn1 : ov (n - 1) = false := hall (n - 1) (by omega)
  have hdw : decWrap (n - 1) = n - 2 := by
    rw [decWrap, if_neg (by omega)]
    omega
  simp only [h0, hn1]
  rw [hdw]
  exact scanAux_notFound ov n hall (2 * n + 3) 1 (n - 2) (by omega) (by omega)
    (by omega) (by omega)

/-- When some index below `n` overlaps, the scan reports an interval:
the least and the greatest overlapping index. -/
lemma scan_found_of_exists (ov : Nat → Bool) (n : Nat)
    (hex : ∃ i, i < n ∧ ov i = true) :
    ∃ l h, scan ov n = some (ScanResult.found l h) ∧ l ≤ h ∧ h < n ∧
      ov l = true ∧ ov h = true ∧
      (∀ k, k < l → ov k = false) ∧ (∀ k, h < k → k < n → ov k = false) := by
  obtain ⟨w, hwn, hwov⟩ := hex
  have hex2 : ∃ i, ov i = true := ⟨w, hwov⟩
  have hexr : ∃ k, ov (n - 1 - k) = true := by
    refine ⟨n - 1 - w, ?_⟩
    have hw : n - 1 - (n - 1 - w) = w := by omega
    rw [hw]; exact hwov
  set l := Nat.find hex2 with hl
  set k0 := Nat.find hexr with hk0
  set h := n - 1 - k0 with hh
  have hovl : ov l = true := Nat.find_spec hex2
  have hovh : ov h = true := Nat.find_spec hexr
  have hmin : ∀ k, k < l → ov k = false := by
    intro k hk
    exact Bool.eq_false_iff.mpr (Nat.find_min hex2 hk)
  have hln : l < n := lt_of_le_of_lt (Nat.find_min' hex2 hwov) hwn
  have hhn : h < n := by omega
  have hmax : ∀ j, h < j → j < n → ov j = false := by
    intro j hj1 hj2
    cases hq : ov j with
    | false => rfl
    | true =>
      exfalso
      have hj3 : n - 1 - (n - 1 - j) = j := by omega
      have hle : k0 ≤ n - 1 - j := Nat.find_min' hexr (by rw [hj3]; exact hq)
      omega
  have hlh : l ≤ h := by
    rcases le_or_lt l h with hx | hx
    · exact hx
    · exact absurd (hmax l hx hln) (by simp [hovl])
  exact ⟨l, h, scan_found ov n l h hln hovl hmin hhn hovh hmax,
    hlh, hhn, hovl, hovh, hmin, hmax⟩

/-- A `notFound` verdict is faithful: it implies no path index
overlaps. -/
lemma no_overlap_of_scan_notFound (ov : Nat → Bool) (n : Nat)
    (hs : scan ov n = some ScanResult.notFound) :
    ∀ i, i < n → ov i = false := by
  intro i hin
  cases hq : ov i with
  | false => rfl
  | true =>
    exfalso
    obtain ⟨l, h, hs2, -⟩ := scan_found_of_exists ov n ⟨i, hin, hq⟩
    rw [hs] at hs2
    injection hs2 with hq2
    exact ScanResult.noConfusion hq2

/-- Full characterization of the scan on a path with at least two
samples: it terminates without any out-of-range access, returning
`found l h` with `l` the least and `h` the greatest overlapping index
when an overlap exists, and `notFound` otherwise. -/
lemma scan_total (ov : Nat → Bool) (n : Nat) (hn : 2 ≤ n) :
    (∃ l h, scan ov n = some (ScanResult.found l h) ∧ l ≤ h ∧ h < n ∧
        ov l = true ∧ ov h = true ∧
        (∀ k, k < l → ov k = false) ∧ (∀ k, h < k → k < n → ov k = false)) ∨
      (scan ov n = some ScanResult.notFound ∧ ∀ i, i < n → ov i = false) := by
  by_cases hex : ∃ i, i < n ∧ ov i = true
  · exact Or.inl (scan_found_of_exists ov n hex)
  · right
    push_neg at hex
    have hall : ∀ i, i < n → ov i = false := fun i hi =>
      Bool.eq_false_iff.mpr (hex i hi)
    exact ⟨scan_notFound ov n hn hall, hall⟩

/-!
Characterizations of the mapping helpers and the orchestration loops.
-/

/-- The clip never exceeds the clipping bound. -/
lemma stdmin_le_right (a b : ℚ) : stdmin a b ≤ b := by
  rw [stdmin]
  by_cases h : a ≤ b
  · rw [if_pos h]; exact h
  · rw [if_neg h]

/-- The clip keeps the station when it is within the bound. -/
lemma stdmin_eq_left (a b : ℚ) (h : a ≤ b) : stdmin a b = a := by
  rw [stdmin, if_pos h]

/-- The clip is monotone in its first argument. -/
lemma stdmin_mono_left (a b c : ℚ) (h : a ≤ b) : stdmin a c ≤ stdmin b c := by
  rw [stdmin, stdmin]
  split_ifs <;> linarith

/-- The epsilon of the comparison is positive. -/
lemma kEpsilon_pos : 0 < Double.kEpsilon := by
  norm_num [Double.kEpsilon]

/-- Evaluation of the epsilon-aware comparison when the second value is
larger by more than epsilon. -/
lemma compare_eq_neg_one (d1 d2 : ℚ) (h : d1 + Double.kEpsilon < d2) :
    Double.compare d1 d2 = -1 := by
  have hpos := kEpsilon_pos
  rw [Double.compare, if_neg (by linarith), if_pos (by linarith)]

/-- Evaluation of the epsilon-aware comparison when the two values are
within epsilon of each other. -/
lemma compare_eq_zero (d1 d2 : ℚ) (h1 : d1 - d2 ≤ Double.kEpsilon)
    (h2 : d2 - d1 ≤ Double.kEpsilon) : Double.compare d1 d2 = 0 := by
  rw [Double.compare, if_neg (by linarith), if_neg (by linarith)]

/-- On an empty path the static helper fails with the fixed
empty-path message, leaving the output untouched. -/
lemma map_static_empty_path (co : CheckOverlap) (vp : VehicleParam) (buffer : ℚ)
    (obstacle : Obstacle) (path_data : PathData) (pd pt : ℚ)
    (bnd : List StGraphBoundary) (hp : path_data.path_points = []) :
    map_obstacle_without_trajectory co vp buffer obstacle path_data pd pt bnd
      = some (Status.error "[DP_ST_BOUNDARY_MAPPER] Vehicle path empty.", bnd) := by
  simp only [map_obstacle_without_trajectory, hp]
  rfl

/-- When the scan finds an interval, the static helper emits the
clipped rectangle iff the epsilon-aware comparison is strict. -/
lemma map_static_found_eq (co : CheckOverlap) (vp : VehicleParam) (buffer : ℚ)
    (obstacle : Obstacle) (path_data : PathData) (pd pt : ℚ)
    (bnd : List StGraphBoundary) (low high : Nat)
    (hne : ¬path_data.path_points.length = 0)
    (hs : scan (overlapAt co vp buffer obstacle.bounding_box path_data.path_points)
        path_data.path_points.length = some (ScanResult.found low high)) :
    map_obstacle_without_trajectory co vp buffer obstacle path_data pd pt bnd
      = if Double.compare (stdmin (path_data.path_points.getD low default).s pd)
            (stdmin (path_data.path_points.getD high default).s pd) < 0
        then some (Status.ok, bnd ++ [⟨[
            ⟨stdmin (path_data.path_points.getD low default).s pd, 0⟩,
            ⟨stdmin (path_data.path_points.getD low default).s pd, pt⟩,
            ⟨stdmin (path_data.path_points.getD high default).s pd, pt⟩,
            ⟨stdmin (path_data.path_points.getD high default).s pd, 0⟩]⟩])
        else some (Status.ok, bnd) := by
  simp only [map_obstacle_without_trajectory]
  rw [if_neg hne, hs]

/-- When the scan finds no interval, the static helper leaves the
output untouched and succeeds. -/
lemma map_static_notFound_eq (co : CheckOverlap) (vp : VehicleParam) (buffer : ℚ)
    (obstacle : Obstacle) (path_data : PathData) (pd pt : ℚ)
    (bnd : List StGraphBoundary)
    (hne : ¬path_data.path_points.length = 0)
    (hs : scan (overlapAt co vp buffer obstacle.bounding_box path_data.path_points)
        path_data.path_points.length = some ScanResult.notFound) :
    map_obstacle_without_trajectory co vp buffer obstacle path_data pd pt bnd
      = some (Status.ok, bnd) := by
  simp only [map_obstacle_without_trajectory]
  rw [if_neg hne, hs]

/-- On a path with at least two samples the static helper always
succeeds. -/
lemma map_static_ok (co : CheckOverlap) (vp : VehicleParam) (buffer : ℚ)
    (obstacle : Obstacle) (path_data : PathData) (pd pt : ℚ)
    (bnd : List StGraphBoundary) (hn : 2 ≤ path_data.path_points.length) :
    ∃ bnd', map_obstacle_without_trajectory co vp buffer obstacle path_data pd pt bnd
      = some (Status.ok, bnd') := by
  have hne : ¬path_data.path_points.length = 0 := by omega
  rcases scan_total (overlapAt co vp buffer obstacle.bounding_box path_data.path_points)
      path_data.path_points.length hn with ⟨l, h, hs, -, -, -, -, -, -⟩ | ⟨hs, -⟩
  · rw [map_static_found_eq co vp buffer obstacle path_data pd pt bnd l h hne hs]
    by_cases hc : Double.compare (stdmin (path_data.path_points.getD l default).s pd)
        (stdmin (path_data.path_points.getD h default).s pd) < 0
    · rw [if_pos hc]; exact ⟨_, rfl⟩
    · rw [if_neg hc]; exact ⟨bnd, rfl⟩
  · exact ⟨bnd, map_static_notFound_eq co vp buffer obstacle path_data pd pt bnd hne hs⟩

/-- On an empty path the per-sample loop of the dynamic helper takes
the early `return Status::OK()` branch (or finishes an empty sample
list). -/
lemma dyn_trajs_empty_path (co : CheckOverlap) (vp : VehicleParam) (buffer : ℚ)
    (ol ow pd : ℚ) :
    ∀ trajs lower upper,
      dyn_trajs co vp buffer ol ow [] pd trajs lower upper = some () := by
  intro trajs
  induction trajs with
  | nil => intro lower upper; rfl
  | cons t rest ih =>
    intro lower upper
    cases ht : t.trajectory_points with
    | nil =>
      show (match dyn_samples co vp buffer ol ow [] pd t.trajectory_points lower upper true with
        | none => none
        | some (Sum.inl ()) => some ()
        | some (Sum.inr (lower', upper', skip)) =>
          if skip then dyn_trajs co vp buffer ol ow [] pd rest lower' upper'
          else dyn_trajs co vp buffer ol ow [] pd rest lower' upper') = some ()
      rw [ht]
      exact ih lower upper
    | cons tp rest2 =>
      show (match dyn_samples co vp buffer ol ow [] pd t.trajectory_points lower upper true with
        | none => none
        | some (Sum.inl ()) => some ()
        | some (Sum.inr (lower', upper', skip)) =>
          if skip then dyn_trajs co vp buffer ol ow [] pd rest lower' upper'
          else dyn_trajs co vp buffer ol ow [] pd rest lower' upper') = some ()
      rw [ht]
      rfl

/-- On an empty path the dynamic helper returns success and leaves the
output untouched (it does not report an error). -/
lemma map_with_traj_empty_path (co : CheckOverlap) (vp : VehicleParam) (buffer : ℚ)
    (obstacle : Obstacle) (path_data : PathData) (pd pt : ℚ)
    (bnd : List StGraphBoundary) (hp : path_data.path_points = []) :
    map_obstacle_with_trajectory co vp buffer obstacle path_data pd pt bnd
      = some (Status.ok, bnd) := by
  rw [map_obstacle_with_trajectory, hp,
    dyn_trajs_empty_path co vp buffer obstacle.length obstacle.width pd
      obstacle.prediction_trajectories [] []]

/-- The per-sample loop of the dynamic helper never performs an
out-of-range path access when the path has at least two samples. -/
lemma dyn_samples_total (co : CheckOverlap) (vp : VehicleParam) (buffer : ℚ)
    (ol ow : ℚ) (veh_path : List PathPoint) (pd : ℚ)
    (hn : 2 ≤ veh_path.length) :
    ∀ samples lower upper skip,
      dyn_samples co vp buffer ol ow veh_path pd samples lower upper skip ≠ none := by
  intro samples
  induction samples with
  | nil => intro l u s h; cases h
  | cons tp rest ih =>
    intro l u s h
    simp only [dyn_samples] at h
    rw [if_neg (by omega : ¬veh_path.length = 0)] at h
    rcases scan_total (overlapAt co vp buffer
        ⟨tp.path_point.x, tp.path_point.y, tp.path_point.theta, ol, ow⟩ veh_path)
        veh_path.length hn with ⟨l0, h0, hs, -, -, -, -, -, -⟩ | ⟨hs, -⟩
    · rw [hs] at h
      replace h : (if 0 ≤ Double.compare (stdmin (veh_path.getD l0 default).s pd)
            (stdmin (veh_path.getD h0 default).s pd) then
          dyn_samples co vp buffer ol ow veh_path pd rest l u s
        else
          dyn_samples co vp buffer ol ow veh_path pd rest
            (l ++ [⟨stdmin (veh_path.getD l0 default).s pd, tp.relative_time⟩])
            (u ++ [⟨stdmin (veh_path.getD h0 default).s pd, tp.relative_time⟩])
            false) = none := h
      by_cases hc : 0 ≤ Double.compare (stdmin (veh_path.getD l0 default).s pd)
          (stdmin (veh_path.getD h0 default).s pd)
      · rw [if_pos hc] at h
        exact ih _ _ _ h
      · rw [if_neg hc] at h
        exact ih _ _ _ h
    · rw [hs] at h
      exact ih _ _ _ h

/-- The trajectory loop of the dynamic helper never performs an
out-of-range path access when the path has at least two samples. -/
lemma dyn_trajs_total (co : CheckOverlap) (vp : VehicleParam) (buffer : ℚ)
    (ol ow : ℚ) (veh_path : List PathPoint) (pd : ℚ)
    (hn : 2 ≤ veh_path.length) :
    ∀ trajs lower upper,
      dyn_trajs co vp buffer ol ow veh_path pd trajs lower upper ≠ none := by
  intro trajs
  induction trajs with
  | nil => intro l u h; cases h
  | cons t rest ih =>
    intro l u h
    simp only [dyn_trajs] at h
    cases hds : dyn_samples co vp buffer ol ow veh_path pd t.trajectory_points l u true with
    | none => exact dyn_samples_total co vp buffer ol ow veh_path pd hn _ _ _ _ hds
    | some r =>
      rw [hds] at h
      cases r with
      | inl uu => cases uu; cases h
      | inr triple =>
        obtain ⟨l2, u2, sk⟩ := triple
        cases sk with
        | false => exact ih _ _ h
        | true => exact ih _ _ h

/-- On a path with at least two samples the dynamic helper returns
success with the output untouched (it appends nothing). -/
lemma map_with_traj_ok (co : CheckOverlap) (vp : VehicleParam) (buffer : ℚ)
    (obstacle : Obstacle) (path_data : PathData) (pd pt : ℚ)
    (bnd : List StGraphBoundary) (hn : 2 ≤ path_data.path_points.length) :
    map_obstacle_with_trajectory co vp buffer obstacle path_data pd pt bnd
      = some (Status.ok, bnd) := by
  cases hdt : dyn_trajs co vp buffer obstacle.length obstacle.width
      path_data.path_points pd obstacle.prediction_trajectories [] [] with
  | none =>
    exact absurd hdt (dyn_trajs_total co vp buffer obstacle.length obstacle.width
      path_data.path_points pd hn obstacle.prediction_trajectories [] [])
  | some u =>
    cases u
    rw [map_obstacle_with_trajectory, hdt]

/-- Equation of the static loop for a non-null head obstacle. -/
lemma goStatics_cons_some (co : CheckOverlap) (vp : VehicleParam) (buffer : ℚ)
    (path_data : PathData) (pd pt : ℚ) (obs : Obstacle)
    (rest : List (Option Obstacle)) (acc : List StGraphBoundary) :
    goStatics co vp buffer path_data pd pt (some obs :: rest) acc
      = match map_obstacle_without_trajectory co vp buffer obs path_data pd pt acc with
        | none => none
        | some (Status.ok, acc') => goStatics co vp buffer path_data pd pt rest acc'
        | some (Status.error _, acc') =>
          some (Status.error "Fail to map static obstacle with id", acc') := rfl

/-- Equation of the dynamic loop for a non-null head obstacle. -/
lemma goDynamics_cons_some (co : CheckOverlap) (vp : VehicleParam) (buffer : ℚ)
    (path_data : PathData) (pd pt : ℚ) (obs : Obstacle)
    (rest : List (Option Obstacle)) (acc : List StGraphBoundary) :
    goDynamics co vp buffer path_data pd pt (some obs :: rest) acc
      = match map_obstacle_with_trajectory co vp buffer obs path_data pd pt acc with
        | none => none
        | some (Status.ok, acc') => goDynamics co vp buffer path_data pd pt rest acc'
        | some (Status.error _, acc') =>
          some (Status.error "Fail to map dynamic obstacle with id", acc') := rfl

/-- Null entries do not affect the static loop. -/
lemma goStatics_denull (co : CheckOverlap) (vp : VehicleParam) (buffer : ℚ)
    (path_data : PathData) (pd pt : ℚ) :
    ∀ l acc, goStatics co vp buffer path_data pd pt (denull l) acc
      = goStatics co vp buffer path_data pd pt l acc := by
  intro l
  induction l with
  | nil => intro acc; rfl
  | cons o rest ih =>
    intro acc
    cases o with
    | none => exact ih acc
    | some obs =>
      rw [show denull (some obs :: rest) = some obs :: denull rest from rfl]
      rw [goStatics_cons_some, goStatics_cons_some]
      cases hm : map_obstacle_without_trajectory co vp buffer obs path_data pd pt acc with
      | none => rfl
      | some p =>
        obtain ⟨st, acc'⟩ := p
        cases st with
        | ok => exact ih acc'
        | error msg => rfl

/-- Null entries do not affect the dynamic loop. -/
lemma goDynamics_denull (co : CheckOverlap) (vp : VehicleParam) (buffer : ℚ)
    (path_data : PathData) (pd pt : ℚ) :
    ∀ l acc, goDynamics co vp buffer path_data pd pt (denull l) acc
      = goDynamics co vp buffer path_data pd pt l acc := by
  intro l
  induction l with
  | nil => intro acc; rfl
  | cons o rest ih =>
    intro acc
    cases o with
    | none => exact ih acc
    | some obs =>
      rw [show denull (some obs :: rest) = some obs :: denull rest from rfl]
      rw [goDynamics_cons_some, goDynamics_cons_some]
      cases hm : map_obstacle_with_trajectory co vp buffer obs path_data pd pt acc with
      | none => rfl
      | some p =>
        obtain ⟨st, acc'⟩ := p
        cases st with
        | ok => exact ih acc'
        | error msg => rfl

/-- On a path with at least two samples the static loop always
succeeds. -/
lemma goStatics_ok (co : CheckOverlap) (vp : VehicleParam) (buffer : ℚ)
    (path_data : PathData) (pd pt : ℚ)
    (hn : 2 ≤ path_data.path_points.length) :
    ∀ l acc, ∃ acc',
      goStatics co vp buffer path_data pd pt l acc = some (Status.ok, acc') := by
  intro l
  induction l with
  | nil => intro acc; exact ⟨acc, rfl⟩
  | cons o rest ih =>
    intro acc
    cases o with
    | none => exact ih acc
    | some obs =>
      obtain ⟨bnd', hb⟩ := map_static_ok co vp buffer obs path_data pd pt acc hn
      rw [goStatics_cons_some, hb]
      exact ih bnd'

/-- On a path with at least two samples the dynamic loop always
succeeds, and (because the dynamic helper appends nothing) leaves the
accumulator untouched. -/
lemma goDynamics_ok (co : CheckOverlap) (vp : VehicleParam) (buffer : ℚ)
    (path_data : PathData) (pd pt : ℚ)
    (hn : 2 ≤ path_data.path_points.length) :
    ∀ l acc, goDynamics co vp buffer path_data pd pt l acc = some (Status.ok, acc) := by
  intro l
  induction l with
  | nil => intro acc; rfl
  | cons o rest ih =>
    intro acc
    cases o with
    | none => exact ih acc
    | some obs =>
      rw [goDynamics_cons_some,
        map_with_traj_ok co vp buffer obs path_data pd pt acc hn]
      exact ih acc

/-!
Claim theorems.
-/

/-- C2: For a static obstacle, when the two-end scan finds an interval
and the clipped stations satisfy the strict epsilon-aware comparison,
`map_obstacle_without_trajectory` appends exactly one boundary with
vertices `(s_lower,0), (s_lower,T), (s_upper,T), (s_upper,0)`, whose
station coordinates are at most `planning_distance`; a degenerate
clipped interval or an absent interval contributes no boundary. -/
theorem static_obstacle_rectangle_boundary (co : CheckOverlap) (vp : VehicleParam)
    (buffer : ℚ) (obstacle : Obstacle) (path_data : PathData) (pd pt : ℚ)
    (bnd : List StGraphBoundary) (hne : path_data.path_points.length ≠ 0) :
    (∀ low high,
      scan (overlapAt co vp buffer obstacle.bounding_box path_data.path_points)
          path_data.path_points.length = some (ScanResult.found low high) →
      (Double.compare (stdmin (path_data.path_points.getD low default).s pd)
          (stdmin (path_data.path_points.getD high default).s pd) < 0 →
        map_obstacle_without_trajectory co vp buffer obstacle path_data pd pt bnd
          = some (Status.ok, bnd ++ [⟨[
              ⟨stdmin (path_data.path_points.getD low default).s pd, 0⟩,
              ⟨stdmin (path_data.path_points.getD low default).s pd, pt⟩,
              ⟨stdmin (path_data.path_points.getD high default).s pd, pt⟩,
              ⟨stdmin (path_data.path_points.getD high default).s pd, 0⟩]⟩])
        ∧ stdmin (path_data.path_points.getD low default).s pd ≤ pd
        ∧ stdmin (path_data.path_points.getD high default).s pd ≤ pd) ∧
      (0 ≤ Double.compare (stdmin (path_data.path_points.getD low default).s pd)
          (stdmin (path_data.path_points.getD high default).s pd) →
        map_obstacle_without_trajectory co vp buffer obstacle path_data pd pt bnd
          = some (Status.ok, bnd))) ∧
    (scan (overlapAt co vp buffer obstacle.bounding_box path_data.path_points)
        path_data.path_points.length = some ScanResult.notFound →
      map_obstacle_without_trajectory co vp buffer obstacle path_data pd pt bnd
        = some (Status.ok, bnd)) := by
  constructor
  · intro low high hs
    have heq := map_static_found_eq co vp buffer obstacle path_data pd pt bnd
      low high hne hs
    constructor
    · intro hcmp
      rw [heq, if_pos hcmp]
      exact ⟨rfl, stdmin_le_right _ _, stdmin_le_right _ _⟩
    · intro hcmp
      rw [heq, if_neg (not_lt.mpr hcmp)]
  · intro hs
    exact map_static_notFound_eq co vp buffer obstacle path_data pd pt bnd hne hs

/-- Witness for C2, at the spec's Scenario A: stations 0..40, obstacle
band `[20, 30]`, scan finds indices 2 and 3, rectangle `(20,·),(30,·)`
emitted. -/
theorem static_obstacle_rectangle_boundary_witness :
    egPath5.path_points.length ≠ 0 ∧
    scan (overlapAt egOverlap2030 egVehicle (1/2) egStaticObs.bounding_box
        egPath5.path_points) egPath5.path_points.length
      = some (ScanResult.found 2 3) ∧
    Double.compare (stdmin (egPath5.path_points.getD 2 default).s 100)
        (stdmin (egPath5.path_points.getD 3 default).s 100) < 0 ∧
    (map_obstacle_without_trajectory egOverlap2030 egVehicle (1/2) egStaticObs
        egPath5 100 3 []
      = some (Status.ok, [] ++ [⟨[
          ⟨stdmin (egPath5.path_points.getD 2 default).s 100, 0⟩,
          ⟨stdmin (egPath5.path_points.getD 2 default).s 100, 3⟩,
          ⟨stdmin (egPath5.path_points.getD 3 default).s 100, 3⟩,
          ⟨stdmin (egPath5.path_points.getD 3 default).s 100, 0⟩]⟩])
      ∧ stdmin (egPath5.path_points.getD 2 default).s 100 ≤ 100
      ∧ stdmin (egPath5.path_points.getD 3 default).s 100 ≤ 100) := by
  have hne : egPath5.path_points.length ≠ 0 := by decide
  have hs : scan (overlapAt egOverlap2030 egVehicle (1/2) egStaticObs.bounding_box
      egPath5.path_points) egPath5.path_points.length
      = some (ScanResult.found 2 3) := by decide
  have e2 : (egPath5.path_points.getD 2 default).s = 20 := by decide
  have e3 : (egPath5.path_points.getD 3 default).s = 30 := by decide
  have hcmp : Double.compare (stdmin (egPath5.path_points.getD 2 default).s 100)
      (stdmin (egPath5.path_points.getD 3 default).s 100) < 0 := by
    rw [e2, e3, stdmin_eq_left 20 100 (by norm_num), stdmin_eq_left 30 100 (by norm_num),
      compare_eq_neg_one 20 30 (by norm_num [Double.kEpsilon])]
    norm_num
  exact ⟨hne, hs, hcmp,
    ((static_obstacle_rectangle_boundary egOverlap2030 egVehicle (1/2) egStaticObs
      egPath5 100 3 [] hne).1 2 3 hs).1 hcmp⟩

/-- C3: With a negative planning time or a path of fewer than two
samples, `get_graph_boundary` fails fast with an error before any
mapping, and the caller's output collection is left exactly as it was
(no partial output). -/
theorem invalid_input_fails_fast (co : CheckOverlap) (vp : VehicleParam)
    (buffer : ℚ) (ipp : TrajectoryPoint) (dd : DecisionData)
    (path_data : PathData) (rl : ReferenceLine) (pd pt : ℚ)
    (prior : List StGraphBoundary)
    (hbad : pt < 0 ∨ path_data.path_points.length < 2) :
    ∃ msg, get_graph_boundary co vp buffer ipp dd path_data rl pd pt prior
      = some (Status.error msg, prior) := by
  by_cases h1 : pt < 0
  · refine ⟨"Fail to get params since planning_time < 0.", ?_⟩
    rw [get_graph_boundary, if_pos h1]
  · have h2 : path_data.path_points.length < 2 := by tauto
    refine ⟨"Fail to get params", ?_⟩
    rw [get_graph_boundary, if_neg h1, if_pos h2]

/-- Witness for C3: planning time −1 with a valid path, and a one-point
path with a valid planning time, both fail and return the caller's
collection untouched. -/
theorem invalid_input_fails_fast_witness :
    (((-1 : ℚ) < 0 ∨ egPath5.path_points.length < 2) ∧
      ∃ msg, get_graph_boundary egOverlapAll egVehicle 0 egIPP ⟨[], []⟩ egPath5
        egRefLine 100 (-1) [⟨[⟨9, 9⟩]⟩] = some (Status.error msg, [⟨[⟨9, 9⟩]⟩])) ∧
    (((3 : ℚ) < 0 ∨ (PathData.mk [egPathPoint 0]).path_points.length < 2) ∧
      ∃ msg, get_graph_boundary egOverlapAll egVehicle 0 egIPP ⟨[], []⟩
        ⟨[egPathPoint 0]⟩ egRefLine 100 3 [] = some (Status.error msg, [])) := by
  constructor
  · exact ⟨Or.inl (by norm_num),
      invalid_input_fails_fast egOverlapAll egVehicle 0 egIPP ⟨[], []⟩ egPath5
        egRefLine 100 (-1) [⟨[⟨9, 9⟩]⟩] (Or.inl (by norm_num))⟩
  · exact ⟨Or.inr (by decide),
      invalid_input_fails_fast egOverlapAll egVehicle 0 egIPP ⟨[], []⟩
        ⟨[egPathPoint 0]⟩ egRefLine 100 3 [] (Or.inr (by decide))⟩

/-- C4: When the overlapping samples form one non-empty contiguous
index run `[a, b]`, the converging two-cursor scan terminates with both
cursors on overlapping samples and reports exactly that maximal
contiguous range; and whenever the scan reports no interval, no path
sample overlaps the obstacle box at that instant. -/
theorem scan_contiguous_run_exact (ov : Nat → Bool) (n a b : Nat)
    (hab : a ≤ b) (hbn : b < n)
    (hrun : ∀ i, i < n → (ov i = true ↔ (a ≤ i ∧ i ≤ b))) :
    scan ov n = some (ScanResult.found a b) ∧
    ∀ (ov2 : Nat → Bool) (m : Nat), scan ov2 m = some ScanResult.notFound →
      ∀ i, i < m → ov2 i = false := by
  refine ⟨?_, no_overlap_of_scan_notFound⟩
  refine scan_found ov n a b (by omega) ?_ ?_ hbn ?_ ?_
  · exact (hrun a (by omega)).mpr ⟨le_refl a, hab⟩
  · intro k hk
    cases hq : ov k with
    | false => rfl
    | true =>
      have hkn : k < n := by omega
      have := (hrun k hkn).mp hq
      omega
  · exact (hrun b hbn).mpr ⟨hab, le_refl b⟩
  · intro k hk1 hk2
    cases hq : ov k with
    | false => rfl
    | true =>
      have := (hrun k hk2).mp hq
      omega

/-- Witness for C4: overlap exactly at indices 1 and 2 of a four-sample
path; the scan returns the interval `[1, 2]`. -/
theorem scan_contiguous_run_exact_witness :
    (scan (fun i => decide (1 ≤ i) && decide (i ≤ 2)) 4
      = some (ScanResult.found 1 2)) ∧
    ∀ (ov2 : Nat → Bool) (m : Nat), scan ov2 m = some ScanResult.notFound →
      ∀ i, i < m → ov2 i = false :=
  scan_contiguous_run_exact (fun i => decide (1 ≤ i) && decide (i ≤ 2)) 4 1 2
    (by decide) (by decide) (by decide)

/-- C5 counterexample: on an empty path the dynamic mapping step
returns success (`Status::OK()`), not an EmptyPath error — refuting the
claim that each per-obstacle mapping step reports an error on an empty
path. -/
theorem dynamic_empty_path_succeeds_counterexample :
    map_obstacle_with_trajectory egOverlapAll egVehicle 0 egDynObs ⟨[]⟩ 100 7 []
      = some (Status.ok, []) :=
  map_with_traj_empty_path egOverlapAll egVehicle 0 egDynObs ⟨[]⟩ 100 7 [] rfl

/-- C5 amended: only the static step re-validates the path — on an
empty path it fails with the fixed message
`"[DP_ST_BOUNDARY_MAPPER] Vehicle path empty."` (the obstacle id is
only logged, not part of the returned status), while the dynamic step
returns success without mapping anything. -/
theorem empty_path_revalidation_amended (co : CheckOverlap) (vp : VehicleParam)
    (buffer : ℚ) (obs1 obs2 : Obstacle) (path_data : PathData) (pd pt : ℚ)
    (bnd : List StGraphBoundary) (hp : path_data.path_points = []) :
    map_obstacle_without_trajectory co vp buffer obs1 path_data pd pt bnd
      = some (Status.error "[DP_ST_BOUNDARY_MAPPER] Vehicle path empty.", bnd) ∧
    map_obstacle_with_trajectory co vp buffer obs2 path_data pd pt bnd
      = some (Status.ok, bnd) :=
  ⟨map_static_empty_path co vp buffer obs1 path_data pd pt bnd hp,
   map_with_traj_empty_path co vp buffer obs2 path_data pd pt bnd hp⟩

/-- Witness for the amended C5, on an explicit empty path and concrete
obstacles. -/
theorem empty_path_revalidation_amended_witness :
    map_obstacle_without_trajectory egOverlapAll egVehicle 0 egObsA ⟨[]⟩ 100 7 []
      = some (Status.error "[DP_ST_BOUNDARY_MAPPER] Vehicle path empty.", []) ∧
    map_obstacle_with_trajectory egOverlapAll egVehicle 0 egDynObs ⟨[]⟩ 100 7 []
      = some (Status.ok, []) :=
  empty_path_revalidation_amended egOverlapAll egVehicle 0 egObsA egDynObs
    ⟨[]⟩ 100 7 [] rfl

/-- C6 counterexample: two obstacles with different ids produce the
very same failure value (a fixed message, no id), so the returned
failure does not identify the obstacle. -/
theorem mapping_failure_constant_message_counterexample :
    goStatics egOverlapAll egVehicle 0 ⟨[]⟩ 100 7 [some egObsA] []
      = goStatics egOverlapAll egVehicle 0 ⟨[]⟩ 100 7 [some egObsB] [] ∧
    goStatics egOverlapAll egVehicle 0 ⟨[]⟩ 100 7 [some egObsA] []
      = some (Status.error "Fail to map static obstacle with id", []) := by
  constructor <;> decide

/-- C6 amended: if a per-obstacle static mapping step fails (possible
only on an empty path, which the top-level check precludes), the loop
aborts at the first non-null obstacle and returns a `PLANNING_ERROR`
with a fixed message (the obstacle id appears only in the log), and the
output collection is exactly the accumulator passed in — no partial
boundaries from this call. -/
theorem mapping_failure_aborts_amended (co : CheckOverlap) (vp : VehicleParam)
    (buffer : ℚ) (path_data : PathData) (pd pt : ℚ) (obs : Obstacle)
    (rest : List (Option Obstacle)) (hp : path_data.path_points = []) :
    ∀ pre acc, (∀ o ∈ pre, o = none) →
      goStatics co vp buffer path_data pd pt (pre ++ some obs :: rest) acc
        = some (Status.error "Fail to map static obstacle with id", acc) := by
  intro pre
  induction pre with
  | nil =>
    intro acc _
    rw [List.nil_append, goStatics_cons_some,
      map_static_empty_path co vp buffer obs path_data pd pt acc hp]
  | cons o pre2 ih =>
    intro acc hall
    have ho : o = none := hall o (List.mem_cons_self o pre2)
    subst ho
    rw [List.cons_append]
    exact ih acc fun o2 ho2 => hall o2 (List.mem_cons_of_mem _ ho2)

/-- Witness for the amended C6: a null entry followed by a concrete
obstacle, an empty path, and a non-empty accumulator that comes back
unchanged. -/
theorem mapping_failure_aborts_amended_witness :
    ((⟨[]⟩ : PathData).path_points = []) ∧
    goStatics egOverlapAll egVehicle 0 ⟨[]⟩ 100 7
        ([none] ++ some egObsA :: [none]) [⟨[⟨9, 9⟩]⟩]
      = some (Status.error "Fail to map static obstacle with id", [⟨[⟨9, 9⟩]⟩]) :=
  ⟨rfl, mapping_failure_aborts_amended egOverlapAll egVehicle 0 ⟨[]⟩ 100 7
    egObsA [none] rfl [none] [⟨[⟨9, 9⟩]⟩]
    (by intro o ho; simpa using ho)⟩

/-- C7: null entries in either obstacle collection are skipped without
error and without affecting any other obstacle: the result equals the
result on the collections with the null entries removed. -/
theorem null_obstacles_skipped (co : CheckOverlap) (vp : VehicleParam)
    (buffer : ℚ) (ipp : TrajectoryPoint)
    (statics dynamics : List (Option Obstacle)) (path_data : PathData)
    (rl : ReferenceLine) (pd pt : ℚ) (prior : List StGraphBoundary) :
    get_graph_boundary co vp buffer ipp ⟨denull statics, denull dynamics⟩
        path_data rl pd pt prior
      = get_graph_boundary co vp buffer ipp ⟨statics, dynamics⟩
        path_data rl pd pt prior := by
  simp only [get_graph_boundary]
  simp only [goStatics_denull, goDynamics_denull]

/-- C8: `get_graph_boundary` is a pure function of its inputs, and a
successful result does not depend on what the caller's output vector
already contains — in particular a second call performed on top of the
first call's output returns the same result (the vector is cleared
before mapping). -/
theorem get_graph_boundary_idempotent (co : CheckOverlap) (vp : VehicleParam)
    (buffer : ℚ) (ipp : TrajectoryPoint) (dd : DecisionData)
    (path_data : PathData) (rl : ReferenceLine) (pd pt : ℚ)
    (out prior prior2 : List StGraphBoundary)
    (h : get_graph_boundary co vp buffer ipp dd path_data rl pd pt prior
      = some (Status.ok, out)) :
    get_graph_boundary co vp buffer ipp dd path_data rl pd pt prior2
      = some (Status.ok, out) := by
  by_cases h1 : pt < 0
  · rw [get_graph_boundary, if_pos h1] at h
    exact absurd h (by simp)
  · by_cases h2 : path_data.path_points.length < 2
    · rw [get_graph_boundary, if_neg h1, if_pos h2] at h
      exact absurd h (by simp)
    · rw [get_graph_boundary, if_neg h1, if_neg h2] at h
      rw [get_graph_boundary, if_neg h1, if_neg h2]
      exact h

/-- Witness for C8: a successful call with no obstacles, replayed on
top of a non-empty caller vector, returns the same (cleared) output. -/
theorem get_graph_boundary_idempotent_witness :
    get_graph_boundary egOverlapAll egVehicle 0 egIPP ⟨[], []⟩ egPath2
        egRefLine 100 7 [] = some (Status.ok, []) ∧
    get_graph_boundary egOverlapAll egVehicle 0 egIPP ⟨[], []⟩ egPath2
        egRefLine 100 7 [⟨[⟨9, 9⟩]⟩] = some (Status.ok, []) := by
  have h : get_graph_boundary egOverlapAll egVehicle 0 egIPP ⟨[], []⟩ egPath2
      egRefLine 100 7 [] = some (Status.ok, []) := by decide
  exact ⟨h, get_graph_boundary_idempotent egOverlapAll egVehicle 0 egIPP
    ⟨[], []⟩ egPath2 egRefLine 100 7 [] [] [⟨[⟨9, 9⟩]⟩] h⟩

/-- C9 counterexample: on a one-sample path with no overlap the
unsigned high cursor wraps below zero and the loop then reads
`veh_path[1]`, one past the end — the claim fails for non-empty paths
of length one (`map_obstacle_without_trajectory` runs into the
out-of-range access, modelled as `none`). -/
theorem scan_oob_on_singleton_counterexample :
    scan (fun _ => false) 1 = some (ScanResult.oob 1) ∧
    map_obstacle_without_trajectory egOverlapNone egVehicle 0 egObsA
        ⟨[egPathPoint 0]⟩ 100 7 [] = none := by
  constructor <;> decide

/-- C9 amended: on a path with at least two samples the two-cursor loop
terminates without any out-of-range access (the high cursor never
wraps), and when both cursors find an overlap the reported indices
satisfy `low ≤ high < n`, so with non-decreasing stations
`s_lower ≤ s_upper` both before and after clipping. -/
theorem scan_inbounds_amended (ov : Nat → Bool) (n : Nat)
    (veh_path : List PathPoint) (pd : ℚ) (hn : 2 ≤ n)
    (hmono : ∀ j, j < n → ∀ i, i ≤ j →
      (veh_path.getD i default).s ≤ (veh_path.getD j default).s) :
    (∃ r, scan ov n = some r ∧ ∀ i, r ≠ ScanResult.oob i) ∧
    (∀ l h, scan ov n = some (ScanResult.found l h) →
      l ≤ h ∧ h < n ∧
      (veh_path.getD l default).s ≤ (veh_path.getD h default).s ∧
      stdmin (veh_path.getD l default).s pd
        ≤ stdmin (veh_path.getD h default).s pd) := by
  rcases scan_total ov n hn with ⟨l0, h0, hs, hlh, hhn, -, -, -, -⟩ | ⟨hs, -⟩
  · constructor
    · exact ⟨ScanResult.found l0 h0, hs, fun i hq => ScanResult.noConfusion hq⟩
    · intro l h hq
      rw [hs] at hq
      injection hq with hq2
      injection hq2 with e1 e2
      subst e1
      subst e2
      have hss : (veh_path.getD l0 default).s ≤ (veh_path.getD h0 default).s :=
        hmono h0 hhn l0 hlh
      exact ⟨hlh, hhn, hss, stdmin_mono_left _ _ _ hss⟩
  · constructor
    · exact ⟨ScanResult.notFound, hs, fun i hq => ScanResult.noConfusion hq⟩
    · intro l h hq
      rw [hs] at hq
      injection hq with hq2
      exact ScanResult.noConfusion hq2

/-- Witness for the amended C9, on a two-sample path with stations 0
and 10 and an always-overlapping test. -/
theorem scan_inbounds_amended_witness :
    (∃ r, scan (fun _ => true) 2 = some r ∧ ∀ i, r ≠ ScanResult.oob i) ∧
    (∀ l h, scan (fun _ => true) 2 = some (ScanResult.found l h) →
      l ≤ h ∧ h < 2 ∧
      ([egPathPoint 0, egPathPoint 10].getD l default).s
        ≤ ([egPathPoint 0, egPathPoint 10].getD h default).s ∧
      stdmin ([egPathPoint 0, egPathPoint 10].getD l default).s 100
        ≤ stdmin ([egPathPoint 0, egPathPoint 10].getD h default).s 100) :=
  scan_inbounds_amended (fun _ => true) 2 [egPathPoint 0, egPathPoint 10] 100
    (by decide) (by decide)

/-- C10: Whenever the top-level preconditions hold (non-negative
planning time, at least two path samples), `get_graph_boundary`
succeeds for every obstacle collection: the helpers cannot fail, so the
mapping-failure branches are unreachable. -/
theorem preconditions_imply_success (co : CheckOverlap) (vp : VehicleParam)
    (buffer : ℚ) (ipp : TrajectoryPoint) (dd : DecisionData)
    (path_data : PathData) (rl : ReferenceLine) (pd pt : ℚ)
    (prior : List StGraphBoundary) (hpt : 0 ≤ pt)
    (hn : 2 ≤ path_data.path_points.length) :
    ∃ out, get_graph_boundary co vp buffer ipp dd path_data rl pd pt prior
      = some (Status.ok, out) := by
  obtain ⟨acc, hsa⟩ :=
    goStatics_ok co vp buffer path_data pd pt hn dd.static_obstacles []
  refine ⟨acc, ?_⟩
  rw [get_graph_boundary, if_neg (not_lt.mpr hpt), if_neg (by omega), hsa]
  exact goDynamics_ok co vp buffer path_data pd pt hn dd.dynamic_obstacles acc

/-- Witness for C10: Scenario A's path and one static, one null and one
dynamic obstacle. -/
theorem preconditions_imply_success_witness :
    ((0 : ℚ) ≤ 3) ∧ 2 ≤ egPath5.path_points.length ∧
    ∃ out, get_graph_boundary egOverlap2030 egVehicle 0 egIPP
      ⟨[some egStaticObs, none], [some egDynObs]⟩ egPath5 egRefLine 100 3 []
      = some (Status.ok, out) :=
  ⟨by norm_num, by decide,
    preconditions_imply_success egOverlap2030 egVehicle 0 egIPP
      ⟨[some egStaticObs, none], [some egDynObs]⟩ egPath5 egRefLine 100 3 []
      (by norm_num) (by decide)⟩

/-- C1 (code bug): a dynamic obstacle with one trajectory whose single
sample has a valid overlap interval (the second conjunct: the sample
loop records the lower point `(0, 0)` and the upper point `(10, 0)` and
clears `skip`), yet `map_obstacle_with_trajectory` appends nothing to
the output collection — the computed `boundary_points` polygon is
discarded, so no `StGraphBoundary` with `2 × 1` vertices is ever
emitted. -/
theorem dynamic_boundaries_discarded_bug :
    map_obstacle_with_trajectory egOverlapAll egVehicle 0 egDynObs egPath2 100 7 []
      = some (Status.ok, []) ∧
    dyn_samples egOverlapAll egVehicle 0 egDynObs.length egDynObs.width
        egPath2.path_points 100 [egTrajPoint] [] [] true
      = some (Sum.inr ([⟨0, 0⟩], [⟨10, 0⟩], false)) := by
  constructor
  · exact map_with_traj_ok egOverlapAll egVehicle 0 egDynObs egPath2 100 7 []
      (by decide)
  · have e0 : (egPath2.path_points.getD 0 default).s = 0 := by decide
    have e1 : (egPath2.path_points.getD 1 default).s = 10 := by decide
    have hm0 : stdmin (egPath2.path_points.getD 0 default).s 100 = 0 := by
      rw [e0]
      exact stdmin_eq_left 0 100 (by norm_num)
    have hm1 : stdmin (egPath2.path_points.getD 1 default).s 100 = 10 := by
      rw [e1]
      exact stdmin_eq_left 10 100 (by norm_num)
    have hcmp : Double.compare (stdmin (egPath2.path_points.getD 0 default).s 100)
        (stdmin (egPath2.path_points.getD 1 default).s 100) = -1 := by
      rw [hm0, hm1]
      exact compare_eq_neg_one 0 10 (by norm_num [Double.kEpsilon])
    have hs : scan (overlapAt egOverlapAll egVehicle 0
        ⟨egTrajPoint.path_point.x, egTrajPoint.path_point.y,
         egTrajPoint.path_point.theta, egDynObs.length, egDynObs.width⟩
        egPath2.path_points) egPath2.path_points.length
        = some (ScanResult.found 0 1) := by decide
    simp only [dyn_samples]
    rw [if_neg (by decide : ¬egPath2.path_points.length = 0), hs]
    show (if 0 ≤ Double.compare (stdmin (egPath2.path_points.getD 0 default).s 100)
          (stdmin (egPath2.path_points.getD 1 default).s 100) then
        dyn_samples egOverlapAll egVehicle 0 egDynObs.length egDynObs.width
          egPath2.path_points 100 [] [] [] true
      else
        dyn_samples egOverlapAll egVehicle 0 egDynObs.length egDynObs.width
          egPath2.path_points 100 []
          ([] ++ [⟨stdmin (egPath2.path_points.getD 0 default).s 100,
            egTrajPoint.relative_time⟩])
          ([] ++ [⟨stdmin (egPath2.path_points.getD 1 default).s 100,
            egTrajPoint.relative_time⟩])
          false)
      = some (Sum.inr ([⟨0, 0⟩], [⟨10, 0⟩], false))
    rw [hcmp, if_neg (by decide : ¬(0 : Int) ≤ -1), hm0, hm1]
    rfl

end Apollo
